import Mathlib

/-! Shallow embedding of the Gabuzomeuh Game Boy emulator sources
(`src/cpu.rs`, `src/memory.rs`, `src/ppu.rs`, `src/timer.rs`, `src/joypad.rs`,
`src/console.rs`, `src/cartridge.rs`) and proofs about them.

Machine integers are modelled as `Nat` with explicit `% 256` / `% 65536` where
the Rust code relies on wrapping; fixed-size Rust arrays are modelled as
functions `Nat → α` indexed through `arrayGet` / `arraySet`, which return
`none` exactly when the Rust indexing operation would panic (index out of
bounds).  Functions that can panic therefore return `Option`. -/

/-- Read of a Rust array of length `n`: panics (`none`) when out of bounds. -/
def arrayGet {α : Type} (n : Nat) (a : Nat → α) (i : Nat) : Option α :=
  if i < n then some (a i) else none

/-- Write of a Rust array of length `n`: panics (`none`) when out of bounds. -/
def arraySet {α : Type} (n : Nat) (a : Nat → α) (i : Nat) (v : α) : Option (Nat → α) :=
  if i < n then some (fun j => if j = i then v else a j) else none

/-- Value of a byte reinterpreted as Rust `i8`. -/
def i8val (v : Nat) : Int :=
  if v % 256 < 128 then (v % 256 : Int) else (v % 256 : Int) - 256

/-! ## PPU (`src/ppu.rs`) -/

def OAM_SEARCH_CYCLES : Nat := 80
def PIXEL_CYCLES : Nat := 172
def HBLANK_CYCLES : Nat := 204
def TILE_SIZE : Nat := 8

def COLS : Nat := 160
def ROWS : Nat := 144
def VBLANK_ROWS : Nat := 10

def VRAM_SIZE : Nat := 8192
def OAM_SIZE : Nat := 160

def PPU_VBLANK_INTERRUPT : Nat := 0x01
def PPU_STAT_INTERRUPT : Nat := 0x02

inductive Mode where
  | HBlank
  | VBlank
  | SearchOam
  | Transfering
deriving DecidableEq

/-- `Mode as u8` (the `repr(u8)` discriminant). -/
def Mode.toNat : Mode → Nat
  | .HBlank => 0
  | .VBlank => 1
  | .SearchOam => 2
  | .Transfering => 3

inductive Color where
  | White
  | LGray
  | DGray
  | Black
deriving DecidableEq

/-- `Color as u8` (the `repr(u8)` discriminant). -/
def Color.toNat : Color → Nat
  | .White => 0
  | .LGray => 1
  | .DGray => 2
  | .Black => 3

/-- `Color::from_int`.  The Rust match has an `unreachable!()` arm for values
above 3; since `value &&& 3 < 4` that arm cannot fire, so the catch-all here
covers only the `3 => Black` case. -/
def Color.from_int (value : Nat) : Color :=
  match value &&& 0x03 with
  | 0 => .White
  | 1 => .LGray
  | 2 => .DGray
  | _ => .Black

structure SpriteInfo where
  y : Nat
  x : Nat
  index : Nat

structure Ppu where
  vram : Nat → Nat
  oam : Nat → Nat
  data : Nat → Nat
  sprites : Nat → SpriteInfo
  ticks : Nat
  bg_palette : Nat → Color
  sprite_palette1 : Nat → Color
  sprite_palette2 : Nat → Color
  win_tile_map_addr : Nat
  bg_tile_data_addr : Nat
  bg_tile_map_addr : Nat
  mode : Mode
  sprite_height : Nat
  ly : Nat
  lyc : Nat
  scy : Nat
  scx : Nat
  winx : Nat
  winy : Nat
  inter : Nat
  lcd_display_enabled : Bool
  win_enable : Bool
  sprite_enabled : Bool
  bg_window_enable : Bool
  hblank_interrupt_enabled : Bool
  vblank_interrupt_enabled : Bool
  oam_interrupt_enabled : Bool
  lyc_interrupt_enabled : Bool

/-- `impl Default for Ppu`.  The `[Color; 3]` / `[Color; 4]` array literals are
modelled as functions; indices past the array length never occur in a
successful run, the catch-all returns the last element. -/
def Ppu.default : Ppu where
  vram := fun _ => 0
  oam := fun _ => 0
  data := fun _ => 0
  sprites := fun _ => { y := 0, x := 0, index := 0 }
  ticks := 0
  bg_palette := fun i =>
    match i with
    | 0 => .White
    | 1 => .LGray
    | 2 => .DGray
    | _ => .Black
  sprite_palette1 := fun i =>
    match i with
    | 0 => .LGray
    | 1 => .DGray
    | _ => .Black
  sprite_palette2 := fun i =>
    match i with
    | 0 => .LGray
    | 1 => .DGray
    | _ => .Black
  win_tile_map_addr := 0
  bg_tile_data_addr := 0
  bg_tile_map_addr := 0
  mode := .SearchOam
  sprite_height := 0
  ly := 0
  lyc := 0
  scy := 0
  scx := 0
  winx := 0
  winy := 0
  inter := 0
  lcd_display_enabled := false
  win_enable := false
  sprite_enabled := false
  bg_window_enable := false
  hblank_interrupt_enabled := false
  vblank_interrupt_enabled := false
  oam_interrupt_enabled := false
  lyc_interrupt_enabled := false

def Ppu.read_control (p : Ppu) : Nat :=
  let bit7 := if p.lcd_display_enabled then 0x80 else 0x00
  let bit6 := if p.win_tile_map_addr = 0x9C00 then 0x40 else 0x00
  let bit5 := if p.win_enable then 0x20 else 0x00
  let bit4 := if p.bg_tile_data_addr = 0x8000 then 0x10 else 0x00
  let bit3 := if p.bg_tile_map_addr = 0x9C00 then 0x08 else 0x00
  let bit2 := if p.sprite_height = 16 then 0x04 else 0x00
  let bit1 := if p.sprite_enabled then 0x02 else 0x00
  let bit0 := if p.bg_window_enable then 0x01 else 0x00
  bit7 ||| bit6 ||| bit5 ||| bit4 ||| bit3 ||| bit2 ||| bit1 ||| bit0

/-- `Ppu::write_control`.  Note the bare decimal literal `9800` in the source
for the bit-3-clear background tile map base, mirrored here verbatim. -/
def Ppu.write_control (p : Ppu) (value : Nat) : Ppu :=
  { p with
    lcd_display_enabled := value &&& 0x80 == 0x80
    win_tile_map_addr := if value &&& 0x40 == 0x40 then 0x9C00 else 0x9800
    win_enable := value &&& 0x20 == 0x20
    bg_tile_data_addr := if value &&& 0x10 == 0x10 then 0x8000 else 0x8800
    bg_tile_map_addr := if value &&& 0x08 == 0x08 then 0x9C00 else 9800
    sprite_height := if value &&& 0x04 == 0x04 then 16 else 8
    sprite_enabled := value &&& 0x02 == 0x02
    bg_window_enable := value &&& 0x01 == 0x01 }

def Ppu.read_status (p : Ppu) : Nat :=
  let bits01 := p.mode.toNat
  let bit2 := if p.ly = p.lyc then 0x04 else 0x00
  let bit3 := if p.hblank_interrupt_enabled then 0x08 else 0x00
  let bit4 := if p.vblank_interrupt_enabled then 0x10 else 0x00
  let bit5 := if p.oam_interrupt_enabled then 0x20 else 0x00
  let bit6 := if p.lyc_interrupt_enabled then 0x40 else 0x00
  0x80 ||| bit6 ||| bit5 ||| bit4 ||| bit3 ||| bit2 ||| bits01

def Ppu.write_status (p : Ppu) (value : Nat) : Ppu :=
  { p with
    hblank_interrupt_enabled := value &&& 0x08 == 0x08
    vblank_interrupt_enabled := value &&& 0x10 == 0x10
    oam_interrupt_enabled := value &&& 0x20 == 0x20
    lyc_interrupt_enabled := value &&& 0x40 == 0x40 }

def Ppu.read_scy (p : Ppu) : Nat := p.scy

def Ppu.write_scy (p : Ppu) (value : Nat) : Ppu := { p with scy := value }

def Ppu.read_scx (p : Ppu) : Nat := p.scx

def Ppu.write_scx (p : Ppu) (value : Nat) : Ppu := { p with scx := value }

def Ppu.read_ly (p : Ppu) : Nat := p.ly

def Ppu.read_lyc (p : Ppu) : Nat := p.lyc

def Ppu.write_lyc (p : Ppu) (value : Nat) : Ppu := { p with lyc := value }

def Ppu.read_bgp (p : Ppu) : Option Nat :=
  (arrayGet 4 p.bg_palette 0).bind fun c0 =>
  (arrayGet 4 p.bg_palette 1).bind fun c1 =>
  (arrayGet 4 p.bg_palette 2).bind fun c2 =>
  (arrayGet 4 p.bg_palette 3).bind fun c3 =>
  some ((c3.toNat <<< 6) ||| (c2.toNat <<< 4) ||| (c1.toNat <<< 2) ||| c0.toNat)

def Ppu.write_bgp (p : Ppu) (value : Nat) : Option Ppu :=
  (arraySet 4 p.bg_palette 0 (Color.from_int value)).bind fun pal0 =>
  (arraySet 4 pal0 1 (Color.from_int (value >>> 2))).bind fun pal1 =>
  (arraySet 4 pal1 2 (Color.from_int (value >>> 4))).bind fun pal2 =>
  (arraySet 4 pal2 3 (Color.from_int (value >>> 6))).map fun pal3 =>
  { p with bg_palette := pal3 }

def Ppu.read_obp0 (p : Ppu) : Option Nat :=
  (arrayGet 3 p.sprite_palette1 0).bind fun c0 =>
  (arrayGet 3 p.sprite_palette1 1).bind fun c1 =>
  (arrayGet 3 p.sprite_palette1 2).bind fun c2 =>
  some ((c2.toNat <<< 6) ||| (c1.toNat <<< 4) ||| (c0.toNat <<< 2))

/-- `Ppu::write_obp0`.  The source assigns `self.sprite_palette1[3]` although
`sprite_palette1` is declared `[Color; 3]`: the last `arraySet` is out of
bounds, so this function always returns `none` (the Rust code always panics
here). -/
def Ppu.write_obp0 (p : Ppu) (value : Nat) : Option Ppu :=
  (arraySet 3 p.sprite_palette1 0 Color.White).bind fun pal0 =>
  (arraySet 3 pal0 1 (Color.from_int (value >>> 2))).bind fun pal1 =>
  (arraySet 3 pal1 2 (Color.from_int (value >>> 4))).bind fun pal2 =>
  (arraySet 3 pal2 3 (Color.from_int (value >>> 6))).map fun pal3 =>
  { p with sprite_palette1 := pal3 }

def Ppu.read_obp1 (p : Ppu) : Option Nat :=
  (arrayGet 3 p.sprite_palette2 0).bind fun c0 =>
  (arrayGet 3 p.sprite_palette2 1).bind fun c1 =>
  (arrayGet 3 p.sprite_palette2 2).bind fun c2 =>
  some ((c2.toNat <<< 6) ||| (c1.toNat <<< 4) ||| (c0.toNat <<< 2))

/-- `Ppu::write_obp1`: same out-of-bounds `[3]` assignment as `write_obp0`. -/
def Ppu.write_obp1 (p : Ppu) (value : Nat) : Option Ppu :=
  (arraySet 3 p.sprite_palette2 0 Color.White).bind fun pal0 =>
  (arraySet 3 pal0 1 (Color.from_int (value >>> 2))).bind fun pal1 =>
  (arraySet 3 pal1 2 (Color.from_int (value >>> 4))).bind fun pal2 =>
  (arraySet 3 pal2 3 (Color.from_int (value >>> 6))).map fun pal3 =>
  { p with sprite_palette2 := pal3 }

def Ppu.read_wy (p : Ppu) : Nat := p.winy

def Ppu.write_wy (p : Ppu) (value : Nat) : Ppu := { p with winy := value }

def Ppu.read_wx (p : Ppu) : Nat := p.winx

def Ppu.write_wx (p : Ppu) (value : Nat) : Ppu := { p with winx := value }

def Ppu.read_vram (p : Ppu) (addr : Nat) : Option Nat :=
  arrayGet VRAM_SIZE p.vram (addr &&& 0x1FFF)

def Ppu.write_vram (p : Ppu) (addr value : Nat) : Option Ppu :=
  (arraySet VRAM_SIZE p.vram (addr &&& 0x1FFF) value).map fun v =>
  { p with vram := v }

def Ppu.read_oam (p : Ppu) (addr : Nat) : Option Nat :=
  arrayGet OAM_SIZE p.oam (addr - 0xFE00)

def Ppu.write_oam (p : Ppu) (addr value : Nat) : Option Ppu :=
  (arraySet OAM_SIZE p.oam (addr - 0xFE00) value).map fun o =>
  { p with oam := o }

def Ppu.interrupt (p : Ppu) : Nat := p.inter

/-- `Ppu::draw_bg` (the pixel-transfer loop for the background of the current
scanline).  The tile-index fetch uses `bg_tile_map_addr + tile_y * 32 + tile_x`
exactly as in the source. -/
def Ppu.draw_bg (p : Ppu) : Option Ppu :=
  if !p.bg_window_enable then some p
  else
    let bg_y := (p.ly + p.scy) % 256
    (List.range COLS).foldlM
      (fun p x =>
        let bg_x := (p.scx + x) % 256
        let tile_y := bg_y / TILE_SIZE
        let tile_x := bg_x / TILE_SIZE
        (p.read_vram (p.bg_tile_map_addr + tile_y * 32 + tile_x)).bind fun tile_idx =>
        let tile_addr :=
          if p.bg_tile_data_addr = 0x8000 then
            p.bg_tile_data_addr + tile_idx * 16
          else
            p.bg_tile_data_addr + (i8val tile_idx + 128).toNat * 16
        let pixel_y := bg_y &&& 0x07
        (p.read_vram (tile_addr + pixel_y * 2)).bind fun byte1 =>
        (p.read_vram (tile_addr + pixel_y * 2 + 1)).bind fun byte2 =>
        let pixel_x := bg_x &&& 0x07
        let color :=
          (if byte1 &&& (1 <<< pixel_x) ≠ 0 then 1 else 0) |||
          (if byte2 &&& (1 <<< pixel_x) ≠ 0 then 2 else 0)
        (arraySet (COLS * ROWS) p.data (p.ly * COLS + x) color).map fun d =>
        { p with data := d })
      p

/-! ## Timer (`src/timer.rs`) -/

def TICKS : Nat := 16
def DIVIDER_PERIOD : Nat := 256

structure Timer where
  div : Nat
  tima : Nat
  tma : Nat
  enabled : Bool
  step : Nat
  internal_div : Nat
  internal_count : Nat

def Timer.default : Timer where
  div := 0x18
  tima := 0x00
  tma := 0x00
  enabled := false
  step := 256
  internal_div := 0
  internal_count := 0

def Timer.read_div (t : Timer) : Nat := t.div

def Timer.write_div (t : Timer) (_value : Nat) : Timer := { t with div := 0 }

def Timer.read_tima (t : Timer) : Nat := t.tima

def Timer.write_tima (t : Timer) (value : Nat) : Timer := { t with tima := value }

def Timer.read_tma (t : Timer) : Nat := t.tma

def Timer.write_tma (t : Timer) (value : Nat) : Timer := { t with tma := value }

/-- `Timer::read_tac`: the Rust match on `step` panics on any value other than
the four TAC periods, hence the `Option`. -/
def Timer.read_tac (t : Timer) : Option Nat :=
  (if t.step = 1024 then some 0x00
   else if t.step = 16 then some 0x01
   else if t.step = 64 then some 0x02
   else if t.step = 256 then some 0x03
   else none).bind fun clk =>
  let en := if t.enabled then 0x04 else 0
  some (en ||| clk ||| 0xF8)

/-- `Timer::write_tac`: the `_ => panic!` arm is unreachable because
`value &&& 3 < 4`, but it is mirrored by the `none` case. -/
def Timer.write_tac (t : Timer) (value : Nat) : Option Timer :=
  (if value &&& 0b11 = 0 then some 1024
   else if value &&& 0b11 = 1 then some 16
   else if value &&& 0b11 = 2 then some 64
   else if value &&& 0b11 = 3 then some 256
   else none).bind fun step =>
  some { t with step := step, enabled := if value &&& 0b100 == 0 then false else true }

/-- `Timer::cycle`.  It takes no tick count (it advances by a fixed `TICKS`
per call) and, on TIMA overflow, reloads `tma` without raising any interrupt
(the source has no interrupt latch at all, only a `TODO` comment). -/
def Timer.cycle (t : Timer) : Timer :=
  let t := { t with internal_div := t.internal_div + TICKS }
  let t :=
    if t.internal_div ≥ DIVIDER_PERIOD then
      { t with div := (t.div + 1) % 256, internal_div := t.internal_div - DIVIDER_PERIOD }
    else t
  if t.enabled then
    let t := { t with internal_count := t.internal_count + TICKS }
    if t.internal_count ≥ t.step then
      { t with
        tima := if t.tima = 0xFF then t.tma else t.tima + 1,
        internal_count := t.internal_count - t.step }
    else t
  else t

/-! ## Joypad (`src/joypad.rs`) -/

def JOYPAD_INTERRUPT : Nat := 0x10

inductive ButtonSelection where
  | Action
  | Direction
deriving DecidableEq

def A_IDX : Nat := 0
def B_IDX : Nat := 1
def SELECT_IDX : Nat := 2
def START_IDX : Nat := 3
def RIGHT_IDX : Nat := 4
def LEFT_IDX : Nat := 5
def UP_IDX : Nat := 6
def DOWN_IDX : Nat := 7

structure JoypadState where
  buttons : Nat → Bool
  inter : Nat
  button_selection : ButtonSelection

/-- `#[derive(Default)]` with `ButtonSelection::default() == Action`. -/
def JoypadState.default : JoypadState where
  buttons := fun _ => false
  inter := 0
  button_selection := .Action

def JoypadState.write (js : JoypadState) (val : Nat) : JoypadState :=
  if val &&& 0b00100000 = 0 then { js with button_selection := .Action }
  else if val &&& 0b00010000 = 0 then { js with button_selection := .Direction }
  else js

def JoypadState.bit_a (js : JoypadState) : Nat := if js.buttons A_IDX then 0 else 1

def JoypadState.bit_b (js : JoypadState) : Nat := if js.buttons B_IDX then 0 else 0b10

def JoypadState.bit_sel (js : JoypadState) : Nat := if js.buttons SELECT_IDX then 0 else 0b100

def JoypadState.bit_sta (js : JoypadState) : Nat := if js.buttons START_IDX then 0 else 0b1000

def JoypadState.bit_r (js : JoypadState) : Nat := if js.buttons RIGHT_IDX then 0 else 1

def JoypadState.bit_l (js : JoypadState) : Nat := if js.buttons LEFT_IDX then 0 else 0b10

def JoypadState.bit_u (js : JoypadState) : Nat := if js.buttons UP_IDX then 0 else 0b100

def JoypadState.bit_d (js : JoypadState) : Nat := if js.buttons DOWN_IDX then 0 else 0b1000

def JoypadState.read (js : JoypadState) : Nat :=
  match js.button_selection with
  | .Action => js.bit_a ||| js.bit_b ||| js.bit_sel ||| js.bit_sta ||| 0xC0
  | .Direction => js.bit_r ||| js.bit_l ||| js.bit_u ||| js.bit_d ||| 0xC0

def JoypadState.interrupt (js : JoypadState) : Nat := js.inter

/-! ## Memory (`src/memory.rs`) -/

def RAM_SIZE : Nat := 8192
def HRAM_SIZE : Nat := 127

/-- The `Memory` struct.  The `cartridge: Box<dyn Cartridge>` field holds a
`NoCartridge` by default; `NoCartridge` is referenced by `memory.rs` but its
definition is absent from `cartridge.rs`, so its behaviour is modelled from
the spec (below) with the ROM contents kept as the `rom` field. -/
structure Memory where
  ram : Nat → Nat
  hram : Nat → Nat
  rom : Nat → Nat
  joy : JoypadState
  timer : Timer
  ppu : Ppu

/-- Modelled from the spec: `NoCartridge::read_rom` for the no-mapper
cartridge maps the ROM bytes directly (spec section 4.3). -/
def Memory.cart_read_rom (m : Memory) (addr : Nat) : Nat := m.rom addr

/-- Modelled from the spec: `NoCartridge::read_ram` returns 0 for the
no-mapper cartridge (spec section 4.3). -/
def Memory.cart_read_ram (_m : Memory) (_addr : Nat) : Nat := 0

/-- Modelled from the spec: `NoCartridge::write_rom` is ignored for the
no-mapper cartridge (spec section 4.3). -/
def Memory.cart_write_rom (m : Memory) (_addr _val : Nat) : Memory := m

/-- Modelled from the spec: `NoCartridge::write_ram` is ignored for the
no-mapper cartridge (spec section 4.3). -/
def Memory.cart_write_ram (m : Memory) (_addr _val : Nat) : Memory := m

def Memory.default : Memory where
  ram := fun _ => 0
  hram := fun _ => 0
  rom := fun _ => 0
  joy := JoypadState.default
  timer := Timer.default
  ppu := Ppu.default

/-- `Memory::read8`: the `match addr` dispatch, written as the equivalent
chain of range tests in ascending order.  Note the `addr & 0x0FFF` Work-RAM
mask from the source (both for `0xC000..=0xDFFF` and the echo range). -/
def Memory.read8 (m : Memory) (addr : Nat) : Option Nat :=
  if addr ≤ 0x7FFF then some (m.cart_read_rom addr)
  else if addr ≤ 0x9FFF then m.ppu.read_vram addr
  else if addr ≤ 0xBFFF then some (m.cart_read_ram addr)
  else if addr ≤ 0xDFFF then arrayGet RAM_SIZE m.ram (addr &&& 0x0FFF)
  else if addr ≤ 0xFDFF then arrayGet RAM_SIZE m.ram (addr &&& 0x0FFF)
  else if addr ≤ 0xFE9F then m.ppu.read_oam addr
  else if addr = 0xFF00 then some m.joy.read
  else if addr = 0xFF04 then some m.timer.read_div
  else if addr = 0xFF05 then some m.timer.read_tima
  else if addr = 0xFF06 then some m.timer.read_tma
  else if addr = 0xFF07 then m.timer.read_tac
  else if addr = 0xFF40 then some m.ppu.read_control
  else if addr = 0xFF41 then some m.ppu.read_status
  else if addr = 0xFF42 then some m.ppu.read_scy
  else if addr = 0xFF43 then some m.ppu.read_scx
  else if addr = 0xFF44 then some m.ppu.read_ly
  else if addr = 0xFF45 then some m.ppu.read_lyc
  else if addr = 0xFF46 then some 0
  else if addr = 0xFF47 then m.ppu.read_bgp
  else if addr = 0xFF48 then m.ppu.read_obp0
  else if addr = 0xFF49 then m.ppu.read_obp1
  else if addr = 0xFF4A then some m.ppu.read_wy
  else if addr = 0xFF4B then some m.ppu.read_wx
  else if 0xFF80 ≤ addr ∧ addr ≤ 0xFFFE then arrayGet HRAM_SIZE m.hram (addr - 0xFF80)
  else some 0xFF

/-- One iteration of the `for offset in 0..0xA0` loop of `Memory::oam_dma`:
`let byte = self.read8(source_address + offset); self.write8(0xFE00 + offset,
byte);`.  The `write8` call always dispatches to the `0xFE00..=0xFE9F` arm
(`Ppu::write_oam`), which is inlined here so that `oam_dma` and `write8` need
not be mutually recursive; the lemma `dmaStep_eq_write8` below certifies that
the inlining agrees with `Memory::write8`. -/
def dmaStep (value : Nat) (s : Memory) (offset : Nat) : Option Memory :=
  (Memory.read8 s ((value <<< 8) + offset)).bind fun byte =>
  (Ppu.write_oam s.ppu (0xFE00 + offset) byte).map fun p =>
  { s with ppu := p }

/-- `Memory::oam_dma`: `source_address = (value as u16) << 8`, then the loop
over `0..0xA0`. -/
def Memory.oam_dma (m : Memory) (value : Nat) : Option Memory :=
  (List.range 0xA0).foldlM (dmaStep value) m

/-- `Memory::write8`, mirroring the `match addr` dispatch. -/
def Memory.write8 (m : Memory) (addr val : Nat) : Option Memory :=
  if addr ≤ 0x7FFF then some (m.cart_write_rom addr val)
  else if addr ≤ 0x9FFF then (m.ppu.write_vram addr val).map fun p => { m with ppu := p }
  else if addr ≤ 0xBFFF then some (m.cart_write_ram addr val)
  else if addr ≤ 0xDFFF then
    (arraySet RAM_SIZE m.ram (addr &&& 0x0FFF) val).map fun r => { m with ram := r }
  else if addr ≤ 0xFDFF then
    (arraySet RAM_SIZE m.ram (addr &&& 0x0FFF) val).map fun r => { m with ram := r }
  else if addr ≤ 0xFE9F then (m.ppu.write_oam addr val).map fun p => { m with ppu := p }
  else if addr = 0xFF00 then some { m with joy := m.joy.write val }
  else if addr = 0xFF04 then some { m with timer := m.timer.write_div val }
  else if addr = 0xFF05 then some { m with timer := m.timer.write_tima val }
  else if addr = 0xFF06 then some { m with timer := m.timer.write_tma val }
  else if addr = 0xFF07 then (m.timer.write_tac val).map fun t => { m with timer := t }
  else if addr = 0xFF40 then some { m with ppu := m.ppu.write_control val }
  else if addr = 0xFF41 then some { m with ppu := m.ppu.write_status val }
  else if addr = 0xFF42 then some { m with ppu := m.ppu.write_scy val }
  else if addr = 0xFF43 then some { m with ppu := m.ppu.write_scx val }
  else if addr = 0xFF45 then some { m with ppu := m.ppu.write_lyc val }
  else if addr = 0xFF46 then m.oam_dma val
  else if addr = 0xFF47 then (m.ppu.write_bgp val).map fun p => { m with ppu := p }
  else if addr = 0xFF48 then (m.ppu.write_obp0 val).map fun p => { m with ppu := p }
  else if addr = 0xFF49 then (m.ppu.write_obp1 val).map fun p => { m with ppu := p }
  else if addr = 0xFF4A then some { m with ppu := m.ppu.write_wy val }
  else if addr = 0xFF4B then some { m with ppu := m.ppu.write_wx val }
  else if 0xFF80 ≤ addr ∧ addr ≤ 0xFFFE then
    (arraySet HRAM_SIZE m.hram (addr - 0xFF80) val).map fun h => { m with hram := h }
  else some m

/-- `Memory::read16` (little endian). -/
def Memory.read16 (m : Memory) (addr : Nat) : Option Nat :=
  (m.read8 addr).bind fun lb =>
  (m.read8 (addr + 1)).bind fun hb =>
  some ((hb <<< 8) ||| lb)

/-- `Memory::write16`: low byte at `addr`, high byte at `addr + 1`. -/
def Memory.write16 (m : Memory) (addr val : Nat) : Option Memory :=
  (m.write8 addr (val &&& 0xFF)).bind fun m2 =>
  m2.write8 (addr + 1) ((val >>> 8) &&& 0xFF)

/-! ## CPU (`src/cpu.rs`) -/

def FLAG_ZERO : Nat := 0x80
def FLAG_SUB : Nat := 0x40
def FLAG_HALF : Nat := 0x20
def FLAG_CARRY : Nat := 0x10

structure Registers where
  a : Nat
  b : Nat
  c : Nat
  d : Nat
  e : Nat
  f : Nat
  h : Nat
  l : Nat
  sp : Nat
  pc : Nat

def Registers.default : Registers where
  a := 0
  b := 0
  c := 0
  d := 0
  e := 0
  f := 0
  h := 0
  l := 0
  sp := 0
  pc := 0

def Registers.isset_flag (r : Registers) (flag : Nat) : Bool :=
  r.f &&& flag == flag

def Registers.toggle_flag (r : Registers) (flag : Nat) : Registers :=
  { r with f := r.f ||| flag }

/-- `f &= !flag` on a `u8`. -/
def Registers.clear_flag (r : Registers) (flag : Nat) : Registers :=
  { r with f := r.f &&& (flag ^^^ 0xFF) }

def Registers.toggle_zero_flag (r : Registers) (value : Nat) : Registers :=
  if value = 0 then r.toggle_flag FLAG_ZERO else r

def Registers.toggle_carry_flag (r : Registers) (value : Nat) : Registers :=
  if value &&& 0x100 ≠ 0 then r.toggle_flag FLAG_CARRY else r

def Registers.toggle_half_flag (r : Registers) (value : Nat) : Registers :=
  if value &&& 0x10 ≠ 0 then r.toggle_flag FLAG_HALF else r

structure Cpu where
  regs : Registers
  mem : Memory
  interrupts : Bool
  enabled : Bool

def Cpu.default : Cpu where
  regs := Registers.default
  mem := Memory.default
  interrupts := false
  enabled := false

/-- `Cpu::add8`: note that both the carry toggle and the half toggle are fed
the full 32-bit sum `result`, exactly as in the source. -/
def Cpu.add8 (c : Cpu) (value : Nat) (use_carry : Bool) : Cpu :=
  let carry_value :=
    if use_carry && c.regs.isset_flag FLAG_CARRY then 1 else 0
  let result := carry_value + c.regs.a + value
  let regs := { c.regs with a := result % 256, f := 0 }
  let regs := regs.toggle_zero_flag (result % 256)
  let regs := regs.toggle_carry_flag result
  let regs := regs.toggle_half_flag result
  { c with regs := regs }

/-- `Cpu::inc`: returns the updated CPU and the incremented value.  The flag
register is assigned `0` wholesale before Z and H are toggled. -/
def Cpu.inc (c : Cpu) (value : Nat) : Cpu × Nat :=
  let result := (value + 1) % 256
  let regs := { c.regs with f := 0 }
  let regs := regs.toggle_half_flag result
  let regs := regs.toggle_zero_flag result
  ({ c with regs := regs }, result)

/-- `Cpu::dec`: wrapping decrement; the flag register is assigned `FLAG_SUB`
wholesale before H and Z are toggled. -/
def Cpu.dec (c : Cpu) (value : Nat) : Cpu × Nat :=
  let result := (value + 255) % 256
  let regs := { c.regs with f := FLAG_SUB }
  let regs := if value &&& 0x0F = 0 then regs.toggle_flag FLAG_HALF else regs
  let regs := regs.toggle_zero_flag result
  ({ c with regs := regs }, result)

/-- `Cpu::push`: `sp -= 2` wraps modulo 2^16 (u16 arithmetic), then the value
is stored at the new stack pointer. -/
def Cpu.push (c : Cpu) (val : Nat) : Option Cpu :=
  let sp := (c.regs.sp + 0x10000 - 2) % 0x10000
  (c.mem.write16 sp val).map fun m =>
  { c with regs := { c.regs with sp := sp }, mem := m }

/-- `Cpu::call`: `sp -= 2; write16(sp, val); pc = val` — the value written to
the stack is the call target `val`, exactly as in the source. -/
def Cpu.call (c : Cpu) (val : Nat) : Option Cpu :=
  let sp := (c.regs.sp + 0x10000 - 2) % 0x10000
  (c.mem.write16 sp val).map fun m =>
  { c with regs := { c.regs with sp := sp, pc := val }, mem := m }

/-- `Cpu::ret`: pop the stack into PC. -/
def Cpu.ret (c : Cpu) : Option Cpu :=
  (c.mem.read16 c.regs.sp).map fun pc =>
  { c with regs := { c.regs with pc := pc, sp := (c.regs.sp + 2) % 0x10000 } }

/-- `Cpu::rst`: push PC, then jump to the fixed vector. -/
def Cpu.rst (c : Cpu) (val : Nat) : Option Cpu :=
  (c.push c.regs.pc).map fun c2 =>
  { c2 with regs := { c2.regs with pc := val } }


/-! ## Invariants and helper lemmas -/

/-- The timer `step` field only ever holds one of the four TAC periods:
`Timer::default` sets 256 and `Timer::write_tac` only assigns these four
values; `Timer::read_tac` panics on any other value. -/
def TimerWf (t : Timer) : Prop :=
  t.step = 1024 ∨ t.step = 16 ∨ t.step = 64 ∨ t.step = 256

/-- A memory state that differs from `m` only in the PPU OAM contents. -/
def dmaState (m : Memory) (o : Nat → Nat) : Memory :=
  { m with ppu := { m.ppu with oam := o } }

set_option maxRecDepth 4000
set_option maxHeartbeats 1000000

lemma arrayGet_lt {α : Type} (n : Nat) (a : Nat → α) (i : Nat) (h : i < n) :
    arrayGet n a i = some (a i) := by
  simp [arrayGet, h]

lemma read_tac_isSome (t : Timer) (hwf : TimerWf t) : t.read_tac.isSome := by
  rcases hwf with h | h | h | h <;> (unfold Timer.read_tac; rw [h]) <;> rfl

/-- Dispatch analysis of `Memory::read8` for an arbitrary address: every read
returns a value (no branch panics, given a well-formed timer step), and the
result does not depend on the OAM contents unless the address lies in
`0xFE00..=0xFE9F`. -/
lemma read8_cases_master (m : Memory) (o : Nat → Nat) (hwf : TimerWf m.timer) (addr : Nat) :
    (m.read8 addr).isSome ∧
      ((addr < 0xFE00 ∨ 0xFE9F < addr) → (dmaState m o).read8 addr = m.read8 addr) := by
  unfold Memory.read8
  by_cases c1 : addr ≤ 0x7FFF
  · simp only [if_pos c1]
    exact ⟨rfl, fun _ => by first | rfl | trivial⟩
  simp only [if_neg c1]
  by_cases c2 : addr ≤ 0x9FFF
  · simp only [if_pos c2]
    refine ⟨?_, fun _ => rfl⟩
    show (arrayGet VRAM_SIZE m.ppu.vram (addr &&& 0x1FFF)).isSome
    rw [arrayGet_lt _ _ _ (show addr &&& 0x1FFF < VRAM_SIZE from by
      have h9 : addr &&& 0x1FFF ≤ 0x1FFF := Nat.and_le_right
      show addr &&& 0x1FFF < 8192
      omega)]
    rfl
  simp only [if_neg c2]
  by_cases c3 : addr ≤ 0xBFFF
  · simp only [if_pos c3]
    exact ⟨rfl, fun _ => by first | rfl | trivial⟩
  simp only [if_neg c3]
  by_cases c4 : addr ≤ 0xDFFF
  · simp only [if_pos c4]
    refine ⟨?_, fun _ => rfl⟩
    show (arrayGet RAM_SIZE m.ram (addr &&& 0x0FFF)).isSome
    rw [arrayGet_lt _ _ _ (show addr &&& 0x0FFF < RAM_SIZE from by
      have h9 : addr &&& 0x0FFF ≤ 0x0FFF := Nat.and_le_right
      show addr &&& 0x0FFF < 8192
      omega)]
    rfl
  simp only [if_neg c4]
  by_cases c5 : addr ≤ 0xFDFF
  · simp only [if_pos c5]
    refine ⟨?_, fun _ => rfl⟩
    show (arrayGet RAM_SIZE m.ram (addr &&& 0x0FFF)).isSome
    rw [arrayGet_lt _ _ _ (show addr &&& 0x0FFF < RAM_SIZE from by
      have h9 : addr &&& 0x0FFF ≤ 0x0FFF := Nat.and_le_right
      show addr &&& 0x0FFF < 8192
      omega)]
    rfl
  simp only [if_neg c5]
  by_cases c6 : addr ≤ 0xFE9F
  · simp only [if_pos c6]
    constructor
    · show (arrayGet OAM_SIZE m.ppu.oam (addr - 0xFE00)).isSome
      rw [arrayGet_lt _ _ _ (show addr - 0xFE00 < OAM_SIZE from by
        show addr - 0xFE00 < 160
        omega)]
      rfl
    · intro h
      exact absurd h (by omega)
  simp only [if_neg c6]
  by_cases c7 : addr = 0xFF00
  · simp only [if_pos c7]
    exact ⟨rfl, fun _ => by first | rfl | trivial⟩
  simp only [if_neg c7]
  by_cases c8 : addr = 0xFF04
  · simp only [if_pos c8]
    exact ⟨rfl, fun _ => by first | rfl | trivial⟩
  simp only [if_neg c8]
  by_cases c9 : addr = 0xFF05
  · simp only [if_pos c9]
    exact ⟨rfl, fun _ => by first | rfl | trivial⟩
  simp only [if_neg c9]
  by_cases c10 : addr = 0xFF06
  · simp only [if_pos c10]
    exact ⟨rfl, fun _ => by first | rfl | trivial⟩
  simp only [if_neg c10]
  by_cases c11 : addr = 0xFF07
  · simp only [if_pos c11]
    exact ⟨read_tac_isSome m.timer hwf, fun _ => by first | rfl | trivial⟩
  simp only [if_neg c11]
  by_cases c12 : addr = 0xFF40
  · simp only [if_pos c12]
    exact ⟨rfl, fun _ => by first | rfl | trivial⟩
  simp only [if_neg c12]
  by_cases c13 : addr = 0xFF41
  · simp only [if_pos c13]
    exact ⟨rfl, fun _ => by first | rfl | trivial⟩
  simp only [if_neg c13]
  by_cases c14 : addr = 0xFF42
  · simp only [if_pos c14]
    exact ⟨rfl, fun _ => by first | rfl | trivial⟩
  simp only [if_neg c14]
  by_cases c15 : addr = 0xFF43
  · simp only [if_pos c15]
    exact ⟨rfl, fun _ => by first | rfl | trivial⟩
  simp only [if_neg c15]
  by_cases c16 : addr = 0xFF44
  · simp only [if_pos c16]
    exact ⟨rfl, fun _ => by first | rfl | trivial⟩
  simp only [if_neg c16]
  by_cases c17 : addr = 0xFF45
  · simp only [if_pos c17]
    exact ⟨rfl, fun _ => by first | rfl | trivial⟩
  simp only [if_neg c17]
  by_cases c18 : addr = 0xFF46
  · simp only [if_pos c18]
    exact ⟨rfl, fun _ => by first | rfl | trivial⟩
  simp only [if_neg c18]
  by_cases c19 : addr = 0xFF47
  · simp only [if_pos c19]
    exact ⟨rfl, fun _ => by first | rfl | trivial⟩
  simp only [if_neg c19]
  by_cases c20 : addr = 0xFF48
  · simp only [if_pos c20]
    exact ⟨rfl, fun _ => by first | rfl | trivial⟩
  simp only [if_neg c20]
  by_cases c21 : addr = 0xFF49
  · simp only [if_pos c21]
    exact ⟨rfl, fun _ => by first | rfl | trivial⟩
  simp only [if_neg c21]
  by_cases c22 : addr = 0xFF4A
  · simp only [if_pos c22]
    exact ⟨rfl, fun _ => by first | rfl | trivial⟩
  simp only [if_neg c22]
  by_cases c23 : addr = 0xFF4B
  · simp only [if_pos c23]
    exact ⟨rfl, fun _ => by first | rfl | trivial⟩
  simp only [if_neg c23]
  by_cases c24 : 0xFF80 ≤ addr ∧ addr ≤ 0xFFFE
  · simp only [if_pos c24]
    refine ⟨?_, fun _ => rfl⟩
    show (arrayGet HRAM_SIZE m.hram (addr - 0xFF80)).isSome
    rw [arrayGet_lt _ _ _ (show addr - 0xFF80 < HRAM_SIZE from by
      show addr - 0xFF80 < 127
      omega)]
    rfl
  simp only [if_neg c24]
  exact ⟨rfl, fun _ => by first | rfl | trivial⟩

lemma read8_isSome (m : Memory) (hwf : TimerWf m.timer) (addr : Nat) :
    (m.read8 addr).isSome :=
  (read8_cases_master m m.ppu.oam hwf addr).1

lemma read8_oam_irrelevant (m : Memory) (o : Nat → Nat) (hwf : TimerWf m.timer) (addr : Nat)
    (h : addr < 0xFE00 ∨ 0xFE9F < addr) :
    (dmaState m o).read8 addr = m.read8 addr :=
  (read8_cases_master m o hwf addr).2 h

lemma read8_oam_addr (m : Memory) (i : Nat) (hi : i < 160) :
    m.read8 (0xFE00 + i) = arrayGet OAM_SIZE m.ppu.oam i := by
  have g1 : ¬(0xFE00 + i ≤ 0x7FFF) := by omega
  have g2 : ¬(0xFE00 + i ≤ 0x9FFF) := by omega
  have g3 : ¬(0xFE00 + i ≤ 0xBFFF) := by omega
  have g4 : ¬(0xFE00 + i ≤ 0xDFFF) := by omega
  have g5 : ¬(0xFE00 + i ≤ 0xFDFF) := by omega
  have g6 : 0xFE00 + i ≤ 0xFE9F := by omega
  unfold Memory.read8
  rw [if_neg g1, if_neg g2, if_neg g3, if_neg g4, if_neg g5, if_pos g6]
  unfold Ppu.read_oam
  rw [Nat.add_sub_cancel_left]

lemma write_oam_set (p : Ppu) (i v : Nat) (hi : i < 160) :
    p.write_oam (0xFE00 + i) v
      = some { p with oam := fun j => if j = i then v else p.oam j } := by
  unfold Ppu.write_oam arraySet
  rw [Nat.add_sub_cancel_left, if_pos (show i < OAM_SIZE from hi)]
  rfl

/-- `Memory::write8` at an address in `0xFE00..=0xFE9F` dispatches to
`Ppu::write_oam`; this certifies the inlining done in `dmaStep`. -/
lemma write8_oam_range (m : Memory) (addr v : Nat)
    (h1 : 0xFE00 ≤ addr) (h2 : addr ≤ 0xFE9F) :
    m.write8 addr v = (m.ppu.write_oam addr v).map fun p => { m with ppu := p } := by
  have g1 : ¬(addr ≤ 0x7FFF) := by omega
  have g2 : ¬(addr ≤ 0x9FFF) := by omega
  have g3 : ¬(addr ≤ 0xBFFF) := by omega
  have g4 : ¬(addr ≤ 0xDFFF) := by omega
  have g5 : ¬(addr ≤ 0xFDFF) := by omega
  unfold Memory.write8
  rw [if_neg g1, if_neg g2, if_neg g3, if_neg g4, if_neg g5, if_pos h2]

lemma foldlM_cons_option {α β : Type} (f : β → α → Option β) (b : β) (a : α) (l : List α) :
    (a :: l).foldlM f b = (f b a).bind fun b2 => l.foldlM f b2 := rfl

/-- Invariant of the OAM DMA copy loop: after processing offsets
`start, start+1, …, start+cnt-1` the state differs from `m` only in the OAM,
the processed entries hold the bytes that `read8` returns on `m` at the
corresponding source addresses, and the entries not yet processed are
untouched.  The self-copy case (source page 0xFE, where the loop reads the
OAM it is writing) is covered because each step then rewrites an entry with
its own value. -/
lemma oam_dma_loop (m : Memory) (x : Nat) (hx : x < 256) (hwf : TimerWf m.timer) :
    ∀ (cnt : Nat), ∀ (start : Nat) (o : Nat → Nat), start + cnt ≤ 160 →
      (∀ j, start ≤ j → o j = m.ppu.oam j) →
      ∃ o2, (List.range' start cnt).foldlM (dmaStep x) (dmaState m o) = some (dmaState m o2) ∧
        (∀ j, j < start → o2 j = o j) ∧
        (∀ j, start ≤ j → j < start + cnt → m.read8 ((x <<< 8) + j) = some (o2 j)) ∧
        (∀ j, start + cnt ≤ j → o2 j = m.ppu.oam j) := by
  intro cnt
  induction cnt with
  | zero =>
    intro start o hle hinv
    exact ⟨o, rfl, fun j _ => rfl, fun j hj1 hj2 => absurd hj2 (by omega),
      fun j hj => hinv j (by omega)⟩
  | succ cnt ih =>
    intro start o hle hinv
    have hstart : start < 160 := by omega
    have hsrc : x <<< 8 = x * 256 := by rw [Nat.shiftLeft_eq]
    have hagree : Memory.read8 (dmaState m o) ((x <<< 8) + start)
        = m.read8 ((x <<< 8) + start) := by
      rcases Nat.lt_or_ge (x * 256 + start) 0xFE00 with hlt | hge1
      · rw [hsrc]; exact read8_oam_irrelevant m o hwf _ (Or.inl hlt)
      · rcases Nat.lt_or_ge 0xFE9F (x * 256 + start) with hgt | hle2
        · rw [hsrc]; exact read8_oam_irrelevant m o hwf _ (Or.inr hgt)
        · have hx254 : x = 0xFE := by omega
          have haddr : (x <<< 8) + start = 0xFE00 + start := by rw [hsrc, hx254]
          rw [haddr, read8_oam_addr (dmaState m o) start hstart,
            read8_oam_addr m start hstart,
            arrayGet_lt _ _ _ (show start < OAM_SIZE from hstart),
            arrayGet_lt _ _ _ (show start < OAM_SIZE from hstart)]
          exact congrArg some (hinv start (Nat.le_refl start))
    obtain ⟨v, hv⟩ := Option.isSome_iff_exists.mp
      (read8_isSome m hwf ((x <<< 8) + start))
    have hv2 : Memory.read8 (dmaState m o) ((x <<< 8) + start) = some v := by
      rw [hagree, hv]
    have hwri := write_oam_set (dmaState m o).ppu start v hstart
    have hstep : dmaStep x (dmaState m o) start
        = some (dmaState m (fun j => if j = start then v else o j)) := by
      unfold dmaStep
      rw [hv2, Option.some_bind]
      beta_reduce
      rw [hwri, Option.map_some']
      rfl
    obtain ⟨o2, hfold, hb1, hb2, hb3⟩ := ih (start + 1)
      (fun j => if j = start then v else o j) (by omega)
      (by
        intro j hj
        show (if j = start then v else o j) = m.ppu.oam j
        rw [if_neg (show ¬(j = start) from by omega)]
        exact hinv j (by omega))
    refine ⟨o2, ?_, ?_, ?_, ?_⟩
    · rw [show List.range' start (cnt + 1) = start :: List.range' (start + 1) cnt from rfl,
        foldlM_cons_option, hstep, Option.some_bind]
      exact hfold
    · intro j hj
      rw [hb1 j (by omega)]
      show (if j = start then v else o j) = o j
      exact if_neg (by omega)
    · intro j hj1 hj2
      rcases Nat.eq_or_lt_of_le hj1 with heq | hlt
      · have ho2 : o2 j = v := by
          rw [hb1 j (by omega)]
          show (if j = start then v else o j) = v
          exact if_pos heq.symm
        rw [ho2, ← heq]
        exact hv
      · exact hb2 j (by omega) (by omega)
    · intro j hj
      exact hb3 j (by omega)

/-! ## Claim theorems -/

/-- C1: the claim that Memory::write8 terminates normally for every address
and value is false — `Ppu::write_obp0` / `write_obp1` (reached by writing
0xFF48 / 0xFF49) assign index 3 of a 3-element palette array, an
out-of-bounds access that panics for every written value and every memory
state. -/
theorem write8_obp_panics :
    ∀ (m : Memory) (v : Nat), m.write8 0xFF48 v = none ∧ m.write8 0xFF49 v = none :=
  fun _ _ => ⟨rfl, rfl⟩

def add8_test_cpu : Cpu :=
  { Cpu.default with regs := { Registers.default with a := 0x10 } }

/-- C2: executing ADD A,v at A = 0x10, v = 0x00 leaves F = FLAG_HALF — the
source sets H from bit 4 of the full sum — although
(A and 0xF) + (v and 0xF) = 0 does not exceed 0xF, so the claimed rule
`H ← ((A&0xF)+(v&0xF))>0xF` (which demands H clear, hence F = 0 here) is
violated by the code. -/
theorem add8_half_flag_from_full_sum :
    (add8_test_cpu.add8 0x00 false).regs.f = FLAG_HALF ∧
      (0x10 &&& 0x0F) + (0x00 &&& 0x0F) ≤ 0x0F :=
  ⟨rfl, by decide⟩

def call_test_cpu : Cpu :=
  { Cpu.default with regs := { Registers.default with pc := 0x0103, sp := 0xC002 } }

/-- C3: executing CALL 0x1234 with PC (after the operand) = 0x0103 and
SP = 0xC002 stores 0x1234 — the call target, not the return address
0x0103 — at the new stack top, so a subsequent RET would jump back to
0x1234 instead of resuming after the CALL. -/
theorem call_pushes_target_address :
    ((call_test_cpu.call 0x1234).bind fun c => c.mem.read16 0xC000) = some 0x1234 ∧
      ((call_test_cpu.call 0x1234).bind fun c => c.mem.read16 0xC000) ≠ some 0x0103 ∧
      ((call_test_cpu.call 0x1234).map fun c => c.regs.pc) = some 0x1234 ∧
      ((call_test_cpu.call 0x1234).map fun c => c.regs.sp) = some 0xC000 := by
  refine ⟨rfl, ?_, rfl, rfl⟩
  decide

/-- C4: Memory maps no interrupt-flag register at 0xFF0F — in every state a
read falls through to the default arm and returns 0xFF, and a write is a
no-op — so Console::cycle (whose body only invokes the absent `Cpu::cycle`)
has no IF register into which peripheral interrupt lines could be OR-reduced. -/
theorem no_if_register_mapped :
    ∀ (m : Memory) (v : Nat), m.read8 0xFF0F = some 0xFF ∧ m.write8 0xFF0F v = some m :=
  fun _ _ => ⟨rfl, rfl⟩

def carry_test_cpu : Cpu :=
  { Cpu.default with regs := { Registers.default with f := FLAG_CARRY } }

/-- C5: starting from F with the Carry flag set, both INC and DEC of the
value 5 leave the Carry flag cleared — `Cpu::inc` assigns F = 0 and
`Cpu::dec` assigns F = FLAG_SUB wholesale — contradicting the claim that
these instructions leave C untouched. -/
theorem inc_dec_clear_carry :
    (carry_test_cpu.inc 0x05).1.regs.f &&& FLAG_CARRY = 0 ∧
      (carry_test_cpu.dec 0x05).1.regs.f &&& FLAG_CARRY = 0 ∧
      carry_test_cpu.regs.f &&& FLAG_CARRY ≠ 0 := by
  refine ⟨rfl, rfl, ?_⟩
  decide

def overflow_test_timer : Timer :=
  { Timer.default with enabled := true, step := 16, tima := 0xFF, tma := 0x42 }

/-- C6: when the enabled timer overflows (TIMA = 0xFF at the increment),
`Timer::cycle` does reload TIMA from TMA — but the `Timer` state has no
interrupt latch at all (the overflow arm carries only a TODO comment), so
no Timer interrupt can be raised, contradicting the second half of the
claim. -/
theorem timer_overflow_reloads_tma_only :
    (Timer.cycle overflow_test_timer).tima = overflow_test_timer.tma ∧
      overflow_test_timer.tima = 0xFF :=
  ⟨rfl, rfl⟩

/-- C7: Work RAM is indexed with `addr & 0x0FFF` although the array holds
8192 bytes, so the distinct Work-RAM addresses 0xC000 and 0xD000 alias the
same byte: writing 0xAB at 0xC000 changes the value read at 0xD000 from
0x00 to 0xAB, contradicting the claimed independence of distinct Work-RAM
addresses. -/
theorem wram_echo_alias_bug :
    ((Memory.default.write8 0xC000 0xAB).bind fun m => m.read8 0xD000) = some 0xAB ∧
      Memory.default.read8 0xD000 = some 0x00 :=
  ⟨rfl, rfl⟩

/-- C8: writing LCDC with bit 3 clear sets the background tile-map base to
the decimal literal 9800 (= 0x2648), not 0x9800, so `draw_bg` fetches tile
indices from the wrong VRAM offset; the bit-3-set case correctly uses
0x9C00. -/
theorem write_control_bg_map_base :
    (Ppu.default.write_control 0x00).bg_tile_map_addr = 9800 ∧
      (Ppu.default.write_control 0x08).bg_tile_map_addr = 0x9C00 ∧
      (9800 : Nat) ≠ 0x9800 := by
  refine ⟨rfl, rfl, ?_⟩
  decide

/-- C9: writing a source page X to 0xFF46 performs the OAM DMA copy: the
write succeeds and afterwards, for every i < 160, the OAM byte at 0xFE00+i
equals the byte `read8` returns at X*0x100+i on the pre-DMA state.  The
timer well-formedness hypothesis excludes the unreachable states in which
`read8(0xFF07)` would panic during a DMA from page 0xFF. -/
theorem dma_copies_source_to_oam (m : Memory) (x i : Nat)
    (hx : x < 256) (hi : i < 160) (hwf : TimerWf m.timer) :
    ∃ m2, m.write8 0xFF46 x = some m2 ∧
      m2.read8 (0xFE00 + i) = m.read8 (x * 256 + i) := by
  obtain ⟨o2, hfold, hb1, hb2, hb3⟩ := oam_dma_loop m x hx hwf 160 0 m.ppu.oam (by omega)
    (fun j _ => rfl)
  have hsrc : x <<< 8 = x * 256 := by rw [Nat.shiftLeft_eq]
  have hoam : m.oam_dma x = some (dmaState m o2) := by
    show (List.range 0xA0).foldlM (dmaStep x) m = some (dmaState m o2)
    rw [List.range_eq_range']
    exact hfold
  refine ⟨dmaState m o2, ?_, ?_⟩
  · show m.oam_dma x = some (dmaState m o2)
    exact hoam
  · rw [read8_oam_addr (dmaState m o2) i hi,
      arrayGet_lt _ _ _ (show i < OAM_SIZE from hi)]
    have h2 := hb2 i (by omega) (by omega)
    rw [hsrc] at h2
    exact h2.symm

/-- Witness for C9 at the concrete state `Memory.default`, source page 0x20
and OAM index 0. -/
theorem dma_copies_source_to_oam_witness :
    ((0x20 : Nat) < 256 ∧ (0 : Nat) < 160 ∧ TimerWf Memory.default.timer) ∧
      (∃ m2, Memory.default.write8 0xFF46 0x20 = some m2 ∧
        m2.read8 (0xFE00 + 0) = Memory.default.read8 (0x20 * 256 + 0)) :=
  ⟨⟨by decide, by decide, Or.inr (Or.inr (Or.inr rfl))⟩,
    dma_copies_source_to_oam Memory.default 0x20 0 (by decide) (by decide)
      (Or.inr (Or.inr (Or.inr rfl)))⟩

/-- C10: writing the joypad register with a value whose bits 4 and 5 are
both set changes nothing — the row selection, and hence the value read
back, is exactly as before — and the power-on default selection is the
Action row. -/
theorem joypad_write_idle_keeps_selection (js : JoypadState) (v : Nat)
    (h : v &&& 0x30 = 0x30) :
    (js.write v).button_selection = js.button_selection ∧
      (js.write v).read = js.read ∧
      JoypadState.default.button_selection = ButtonSelection.Action := by
  have e20 : (0x30 : Nat) &&& 0x20 = 0x20 := by decide
  have e10 : (0x30 : Nat) &&& 0x10 = 0x10 := by decide
  have h20 : v &&& 0x20 = 0x20 := by
    have h2 : v &&& 0x30 &&& 0x20 = 0x30 &&& 0x20 := by rw [h]
    rw [Nat.and_assoc, e20] at h2
    exact h2
  have h10 : v &&& 0x10 = 0x10 := by
    have h2 : v &&& 0x30 &&& 0x10 = 0x30 &&& 0x10 := by rw [h]
    rw [Nat.and_assoc, e10] at h2
    exact h2
  have hw : js.write v = js := by
    unfold JoypadState.write
    rw [if_neg (show ¬(v &&& 0b00100000 = 0) from by rw [h20]; decide),
      if_neg (show ¬(v &&& 0b00010000 = 0) from by rw [h10]; decide)]
  exact ⟨by rw [hw], by rw [hw], rfl⟩

/-- Witness for C10 at the power-on joypad state and the written value
0xFF. -/
theorem joypad_write_idle_keeps_selection_witness :
    ((0xFF : Nat) &&& 0x30 = 0x30) ∧
      ((JoypadState.default.write 0xFF).button_selection
          = JoypadState.default.button_selection ∧
        (JoypadState.default.write 0xFF).read = JoypadState.default.read ∧
        JoypadState.default.button_selection = ButtonSelection.Action) :=
  ⟨by decide, joypad_write_idle_keeps_selection JoypadState.default 0xFF (by decide)⟩
